import Mathlib

/-!
Verification of the BESS dashboard core (src/Dashboard.py): the battery
charge/discharge simulation loop and the optimal-decision verdict logic.
All numeric quantities are embedded as rationals; Python's chained
`min(a, b, c)` becomes `min a (min b c)`.
-/

namespace BESS

/-- One input record of the time series: the four numeric fields the
simulation loop and the KPI sums read (`r["Solar"]`, `r["Demand"]`,
`df["Import"]`, `df["Export"]`). -/
structure TimeRecord where
  demand : ℚ
  solar : ℚ
  gridImport : ℚ
  gridExport : ℚ
deriving DecidableEq, Repr

/-- The three values of the `charge_mode` radio control:
"PV ONLY", "GRID ONLY", "PV + GRID". -/
inductive ChargeMode where
  | pvOnly
  | gridOnly
  | pvAndGrid
deriving DecidableEq, Repr

/-- One per-record output of the simulation loop: the values appended to
`pv_chg`, `grid_chg`, `dis` and `soc_pct`. -/
structure StepResult where
  pvCharge : ℚ
  gridCharge : ℚ
  discharge : ℚ
  socPercent : ℚ
deriving DecidableEq, Repr

/-- One iteration of the `for _, r in df.iterrows()` loop
(Dashboard.py lines 83-108): computes excess, deficit, the mode-dependent
pv and grid charge, the discharge, updates `soc`, and emits the four
per-step values.  Returns the emitted record together with the updated
`soc` carried to the next iteration. -/
def simStep (CAP PWR : ℚ) (mode : ChargeMode) (soc : ℚ) (r : TimeRecord) :
    StepResult × ℚ :=
  let excess := max (r.solar - r.demand) 0
  let deficit := max (r.demand - r.solar) 0
  let pvGrid : ℚ × ℚ :=
    match mode with
    | ChargeMode.pvOnly => (min excess (min PWR (CAP - soc)), 0)
    | ChargeMode.gridOnly => (0, min PWR (CAP - soc))
    | ChargeMode.pvAndGrid =>
        let pv := min excess (min PWR (CAP - soc))
        let rem := PWR - pv
        (pv, if 0 < rem then min rem (CAP - soc - pv) else 0)
  let pv := pvGrid.1
  let grid := pvGrid.2
  let discharge := min deficit (min PWR soc)
  let soc' := soc + pv + grid - discharge
  (⟨pv, grid, discharge, soc' / CAP * 100⟩, soc')

/-- The simulation loop from an arbitrary starting `soc`, producing the
list of emitted per-step records in order. -/
def simRun (CAP PWR : ℚ) (mode : ChargeMode) : ℚ → List TimeRecord → List StepResult
  | _, [] => []
  | soc, r :: rs =>
      let p := simStep CAP PWR mode soc r
      p.1 :: simRun CAP PWR mode p.2 rs

/-- The whole simulation: `soc = 0` initially (Dashboard.py line 80). -/
def simulate (CAP PWR : ℚ) (mode : ChargeMode) (rs : List TimeRecord) :
    List StepResult :=
  simRun CAP PWR mode 0 rs

/-- The successive values of `soc` after each loop iteration, from an
arbitrary starting value. -/
def socTrace (CAP PWR : ℚ) (mode : ChargeMode) : ℚ → List TimeRecord → List ℚ
  | _, [] => []
  | soc, r :: rs =>
      let p := simStep CAP PWR mode soc r
      p.2 :: socTrace CAP PWR mode p.2 rs

/-- The value of `soc` when the loop finishes, from an arbitrary starting
value. -/
def socFinal (CAP PWR : ℚ) (mode : ChargeMode) : ℚ → List TimeRecord → ℚ
  | soc, [] => soc
  | soc, r :: rs => socFinal CAP PWR mode (simStep CAP PWR mode soc r).2 rs

/-- `CAP = battery_mwh * 1000` (Dashboard.py line 77). -/
def capOf (battery_mwh : ℚ) : ℚ := battery_mwh * 1000

/-- `battery_mw = 5 if battery_mwh == 10 else 7.5` (Dashboard.py line 58). -/
def mwOf (battery_mwh : ℚ) : ℚ := if battery_mwh = 10 then 5 else 7.5

/-- `PWR = battery_mw * 1000 / 4` (Dashboard.py line 78). -/
def pwrOf (battery_mwh : ℚ) : ℚ := mwOf battery_mwh * 1000 / 4

/-- `total_export = df["Export"].sum()` over the input records. -/
def totalExport (rs : List TimeRecord) : ℚ := (rs.map TimeRecord.gridExport).sum

/-- `pv_to_bess = df["PV_Charge"].sum()` over the simulator output. -/
def totalPvCharge (out : List StepResult) : ℚ := (out.map StepResult.pvCharge).sum

/-- `grid_to_bess = df["Grid_Charge"].sum()` over the simulator output. -/
def totalGridCharge (out : List StepResult) : ℚ :=
  (out.map StepResult.gridCharge).sum

/-- `bess_dis = df["Discharge"].sum()` over the simulator output. -/
def totalDischarge (out : List StepResult) : ℚ :=
  (out.map StepResult.discharge).sum

/-- `avg_soc = df["SOC_%"].mean()`: pandas gives NaN on an empty column,
modelled as `none`; otherwise the arithmetic mean of the emitted
`socPercent` values. -/
def avgSoc (out : List StepResult) : Option ℚ :=
  if out.isEmpty then none
  else some ((out.map StepResult.socPercent).sum / out.length)

/-- The comparison `avg_soc > 65` as Python evaluates it: a NaN average
(empty input) compares false against any threshold. -/
def avgSocExceeds (a : Option ℚ) (t : ℚ) : Bool :=
  match a with
  | none => false
  | some x => decide (t < x)

/-- `export_avoided_pct = pv_to_bess / total_export * 100 if total_export > 0
else 0` (Dashboard.py line 190). -/
def export_avoided_pct (pv_to_bess total_export : ℚ) : ℚ :=
  if 0 < total_export then pv_to_bess / total_export * 100 else 0

/-- `grid_dependency = grid_to_bess / (pv_to_bess + grid_to_bess) * 100 if
(pv_to_bess + grid_to_bess) > 0 else 0` (Dashboard.py line 191). -/
def grid_dependency (pv_to_bess grid_to_bess : ℚ) : ℚ :=
  if 0 < pv_to_bess + grid_to_bess then
    grid_to_bess / (pv_to_bess + grid_to_bess) * 100
  else 0

/-- The two-valued outcome of the decision branch. -/
inductive Verdict where
  | OPTIMAL
  | NOT_OPTIMAL
deriving DecidableEq, Repr

/-- The decision branch (Dashboard.py line 195): OPTIMAL iff
`export_avoided_pct > 60 and avg_soc > 65 and grid_dependency < 40`. -/
def verdict (e : ℚ) (a : Option ℚ) (g : ℚ) : Verdict :=
  if 60 < e ∧ avgSocExceeds a 65 = true ∧ g < 40 then Verdict.OPTIMAL
  else Verdict.NOT_OPTIMAL

/-- The whole pipeline from input records and configuration to the verdict:
simulate, aggregate, compute the three metrics, branch. -/
def runVerdict (CAP PWR : ℚ) (mode : ChargeMode) (rs : List TimeRecord) :
    Verdict :=
  let out := simulate CAP PWR mode rs
  verdict (export_avoided_pct (totalPvCharge out) (totalExport rs))
    (avgSoc out)
    (grid_dependency (totalPvCharge out) (totalGridCharge out))

/-! Helper lemmas shared by the claim theorems. -/

theorem totalPvCharge_cons (x : StepResult) (l : List StepResult) :
    totalPvCharge (x :: l) = x.pvCharge + totalPvCharge l := by
  simp [totalPvCharge]

theorem totalGridCharge_cons (x : StepResult) (l : List StepResult) :
    totalGridCharge (x :: l) = x.gridCharge + totalGridCharge l := by
  simp [totalGridCharge]

theorem totalDischarge_cons (x : StepResult) (l : List StepResult) :
    totalDischarge (x :: l) = x.discharge + totalDischarge l := by
  simp [totalDischarge]

theorem simStep_soc_eq (CAP PWR : ℚ) (mode : ChargeMode) (soc : ℚ)
    (r : TimeRecord) :
    (simStep CAP PWR mode soc r).2 =
      soc + (simStep CAP PWR mode soc r).1.pvCharge +
        (simStep CAP PWR mode soc r).1.gridCharge -
          (simStep CAP PWR mode soc r).1.discharge := by
  cases mode <;> rfl

theorem simStep_socPercent_eq (CAP PWR : ℚ) (mode : ChargeMode) (soc : ℚ)
    (r : TimeRecord) :
    (simStep CAP PWR mode soc r).1.socPercent =
      (simStep CAP PWR mode soc r).2 / CAP * 100 := by
  cases mode <;> rfl

theorem mem_simRun (CAP PWR : ℚ) (mode : ChargeMode) :
    ∀ (rs : List TimeRecord) (soc : ℚ) (res : StepResult),
      res ∈ simRun CAP PWR mode soc rs →
        ∃ s r, res = (simStep CAP PWR mode s r).1 := by
  intro rs
  induction rs with
  | nil => intro soc res h; simp [simRun] at h
  | cons r rs ih =>
      intro soc res h
      simp only [simRun, List.mem_cons] at h
      rcases h with h | h
      · exact ⟨soc, r, h⟩
      · exact ih _ res h

theorem simStep_charge_le (CAP PWR : ℚ) (mode : ChargeMode) (soc : ℚ)
    (r : TimeRecord) :
    (simStep CAP PWR mode soc r).1.pvCharge +
      (simStep CAP PWR mode soc r).1.gridCharge ≤ PWR := by
  cases mode <;> simp only [simStep]
  · rw [add_zero]; exact inf_le_right.trans inf_le_left
  · rw [zero_add]; exact inf_le_left
  · split_ifs with h
    · have h1 : max (r.solar - r.demand) 0 ⊓ (PWR ⊓ (CAP - soc)) ≤ PWR :=
        inf_le_right.trans inf_le_left
      have h2 := inf_le_left
        (a := PWR - max (r.solar - r.demand) 0 ⊓ (PWR ⊓ (CAP - soc)))
        (b := CAP - soc - max (r.solar - r.demand) 0 ⊓ (PWR ⊓ (CAP - soc)))
      linarith
    · rw [add_zero]; exact inf_le_right.trans inf_le_left

theorem simStep_discharge_le (CAP PWR : ℚ) (mode : ChargeMode) (soc : ℚ)
    (r : TimeRecord) :
    (simStep CAP PWR mode soc r).1.discharge ≤ PWR := by
  cases mode <;> simp only [simStep] <;> exact inf_le_right.trans inf_le_left

theorem simStep_soc_bounds (CAP PWR : ℚ) (mode : ChargeMode) (soc : ℚ)
    (r : TimeRecord) (hPWR : 0 ≤ PWR) (h0 : 0 ≤ soc) (h1 : soc ≤ CAP) :
    0 ≤ (simStep CAP PWR mode soc r).2 ∧ (simStep CAP PWR mode soc r).2 ≤ CAP := by
  have hE : (0 : ℚ) ≤ max (r.solar - r.demand) 0 := le_max_right _ 0
  have hD : (0 : ℚ) ≤ max (r.demand - r.solar) 0 := le_max_right _ 0
  have hroom : 0 ≤ CAP - soc := by linarith
  have hdis0 : 0 ≤ max (r.demand - r.solar) 0 ⊓ (PWR ⊓ soc) :=
    le_inf hD (le_inf hPWR h0)
  have hdis_soc : max (r.demand - r.solar) 0 ⊓ (PWR ⊓ soc) ≤ soc :=
    inf_le_right.trans inf_le_right
  cases mode <;> simp only [simStep]
  · have hpv0 : 0 ≤ max (r.solar - r.demand) 0 ⊓ (PWR ⊓ (CAP - soc)) :=
      le_inf hE (le_inf hPWR hroom)
    have hpv_room : max (r.solar - r.demand) 0 ⊓ (PWR ⊓ (CAP - soc)) ≤ CAP - soc :=
      inf_le_right.trans inf_le_right
    constructor <;> linarith
  · have hg0 : 0 ≤ PWR ⊓ (CAP - soc) := le_inf hPWR hroom
    have hg_room : PWR ⊓ (CAP - soc) ≤ CAP - soc := inf_le_right
    constructor <;> linarith
  · have hpv0 : 0 ≤ max (r.solar - r.demand) 0 ⊓ (PWR ⊓ (CAP - soc)) :=
      le_inf hE (le_inf hPWR hroom)
    have hpv_room : max (r.solar - r.demand) 0 ⊓ (PWR ⊓ (CAP - soc)) ≤ CAP - soc :=
      inf_le_right.trans inf_le_right
    split_ifs with h
    · have hg0 : 0 ≤ (PWR - max (r.solar - r.demand) 0 ⊓ (PWR ⊓ (CAP - soc))) ⊓
          (CAP - soc - max (r.solar - r.demand) 0 ⊓ (PWR ⊓ (CAP - soc))) :=
        le_inf (le_of_lt h) (by linarith)
      have hg_room : (PWR - max (r.solar - r.demand) 0 ⊓ (PWR ⊓ (CAP - soc))) ⊓
          (CAP - soc - max (r.solar - r.demand) 0 ⊓ (PWR ⊓ (CAP - soc))) ≤
            CAP - soc - max (r.solar - r.demand) 0 ⊓ (PWR ⊓ (CAP - soc)) :=
        inf_le_right
      constructor <;> linarith
    · constructor <;> linarith

theorem simStep_pv_discharge (CAP PWR : ℚ) (mode : ChargeMode) (soc : ℚ)
    (r : TimeRecord) :
    ¬(0 < (simStep CAP PWR mode soc r).1.pvCharge ∧
      0 < (simStep CAP PWR mode soc r).1.discharge) := by
  cases mode <;> simp only [simStep] <;> rintro ⟨hpv, hdis⟩
  · have hE : (0 : ℚ) < max (r.solar - r.demand) 0 :=
      lt_of_lt_of_le hpv inf_le_left
    have hsd : (0 : ℚ) < r.solar - r.demand := by
      rcases lt_max_iff.mp hE with h | h
      · exact h
      · exact absurd h (lt_irrefl 0)
    have hdef : max (r.demand - r.solar) 0 = 0 := max_eq_right (by linarith)
    have : (0 : ℚ) < max (r.demand - r.solar) 0 :=
      lt_of_lt_of_le hdis inf_le_left
    rw [hdef] at this
    exact lt_irrefl 0 this
  · exact lt_irrefl 0 hpv
  · have hE : (0 : ℚ) < max (r.solar - r.demand) 0 :=
      lt_of_lt_of_le hpv inf_le_left
    have hsd : (0 : ℚ) < r.solar - r.demand := by
      rcases lt_max_iff.mp hE with h | h
      · exact h
      · exact absurd h (lt_irrefl 0)
    have hdef : max (r.demand - r.solar) 0 = 0 := max_eq_right (by linarith)
    have : (0 : ℚ) < max (r.demand - r.solar) 0 :=
      lt_of_lt_of_le hdis inf_le_left
    rw [hdef] at this
    exact lt_irrefl 0 this

theorem socTrace_bounds (CAP PWR : ℚ) (mode : ChargeMode) (hPWR : 0 ≤ PWR) :
    ∀ (rs : List TimeRecord) (soc : ℚ), 0 ≤ soc → soc ≤ CAP →
      ∀ s ∈ socTrace CAP PWR mode soc rs, 0 ≤ s ∧ s ≤ CAP := by
  intro rs
  induction rs with
  | nil => intro soc _ _ s hs; simp [socTrace] at hs
  | cons r rs ih =>
      intro soc h0 h1 s hs
      simp only [socTrace, List.mem_cons] at hs
      obtain ⟨b0, b1⟩ := simStep_soc_bounds CAP PWR mode soc r hPWR h0 h1
      rcases hs with rfl | hs
      · exact ⟨b0, b1⟩
      · exact ih _ b0 b1 s hs

theorem simRun_socPercent_bounds (CAP PWR : ℚ) (mode : ChargeMode)
    (hCAP : 0 < CAP) (hPWR : 0 ≤ PWR) :
    ∀ (rs : List TimeRecord) (soc : ℚ), 0 ≤ soc → soc ≤ CAP →
      ∀ res ∈ simRun CAP PWR mode soc rs,
        0 ≤ res.socPercent ∧ res.socPercent ≤ 100 := by
  intro rs
  induction rs with
  | nil => intro soc _ _ res h; simp [simRun] at h
  | cons r rs ih =>
      intro soc h0 h1 res h
      simp only [simRun, List.mem_cons] at h
      obtain ⟨b0, b1⟩ := simStep_soc_bounds CAP PWR mode soc r hPWR h0 h1
      rcases h with rfl | h
      · rw [simStep_socPercent_eq]
        constructor
        · exact mul_nonneg (div_nonneg b0 hCAP.le) (by norm_num)
        · have hd : (simStep CAP PWR mode soc r).2 / CAP ≤ 1 :=
            (div_le_one hCAP).mpr b1
          have := mul_le_mul_of_nonneg_right hd (by norm_num : (0:ℚ) ≤ 100)
          rw [one_mul] at this
          exact this
      · exact ih _ b0 b1 res h

theorem simRun_length (CAP PWR : ℚ) (mode : ChargeMode) :
    ∀ (rs : List TimeRecord) (soc : ℚ),
      (simRun CAP PWR mode soc rs).length = rs.length := by
  intro rs
  induction rs with
  | nil => intro soc; rfl
  | cons r rs ih => intro soc; simp [simRun, ih]

theorem simRun_gridOnly_pv_total (CAP PWR : ℚ) :
    ∀ (rs : List TimeRecord) (soc : ℚ),
      totalPvCharge (simRun CAP PWR ChargeMode.gridOnly soc rs) = 0 := by
  intro rs
  induction rs with
  | nil => intro soc; rfl
  | cons r rs ih =>
      intro soc
      rw [simRun, totalPvCharge_cons, ih]
      norm_num
      rfl

theorem scenario1_eval :
    simulate 1000 250 ChargeMode.pvOnly [⟨100, 500, 0, 0⟩] =
      [⟨250, 0, 0, 25⟩] := by
  norm_num [simulate, simRun, simStep, min_def, max_def]

theorem gridOnly_eval :
    simulate 1000 250 ChargeMode.gridOnly
        [⟨0, 0, 0, 0⟩, ⟨100, 0, 0, 0⟩] =
      [⟨0, 250, 0, 25⟩, ⟨0, 250, 100, 40⟩] := by
  norm_num [simulate, simRun, simStep, min_def, max_def]

/-! Claim theorems. -/

/-- C1: the verdict is OPTIMAL if and only if the export-avoided percentage
strictly exceeds 60, the average SOC strictly exceeds 65 and the grid
dependency is strictly below 40; aggregates that hit exactly 60, 65 or 40
each independently yield NOT_OPTIMAL. -/
theorem verdict_rule (e a g : ℚ) :
    (verdict e (some a) g = Verdict.OPTIMAL ↔ 60 < e ∧ 65 < a ∧ g < 40) ∧
    ((e = 60 ∨ a = 65 ∨ g = 40) → verdict e (some a) g = Verdict.NOT_OPTIMAL) := by
  unfold verdict avgSocExceeds
  constructor
  · split_ifs with h
    · simp only [decide_eq_true_eq] at h
      exact iff_of_true rfl h
    · simp only [decide_eq_true_eq] at h
      exact iff_of_false (by simp) h
  · rintro (rfl | rfl | rfl)
    · refine if_neg ?_
      simp only [decide_eq_true_eq]
      rintro ⟨h1, _, _⟩
      exact lt_irrefl _ h1
    · refine if_neg ?_
      simp only [decide_eq_true_eq]
      rintro ⟨_, h2, _⟩
      exact lt_irrefl _ h2
    · refine if_neg ?_
      simp only [decide_eq_true_eq]
      rintro ⟨_, _, h3⟩
      exact lt_irrefl _ h3

/-- Witness for C1 at the boundary input: export-avoided exactly 60 yields
NOT_OPTIMAL even with the other two metrics inside their thresholds. -/
theorem verdict_rule_witness :
    verdict 60 (some 70) 30 = Verdict.NOT_OPTIMAL :=
  (verdict_rule 60 70 30).2 (Or.inl rfl)

/-- C2: with positive capacity and power limit and non-negative inputs, the
state of charge stays in [0, CAP] after every step of the run, and every
emitted socPercent lies in [0, 100]; the update itself is the raw
`soc + pv + grid - discharge` with no clamping applied afterwards. -/
theorem soc_invariant (CAP PWR : ℚ) (mode : ChargeMode) (rs : List TimeRecord)
    (hCAP : 0 < CAP) (hPWR : 0 < PWR)
    (hrs : ∀ r ∈ rs, 0 ≤ r.demand ∧ 0 ≤ r.solar) :
    (∀ s ∈ socTrace CAP PWR mode 0 rs, 0 ≤ s ∧ s ≤ CAP) ∧
    (∀ res ∈ simulate CAP PWR mode rs,
      0 ≤ res.socPercent ∧ res.socPercent ≤ 100) :=
  ⟨socTrace_bounds CAP PWR mode hPWR.le rs 0 le_rfl hCAP.le,
   simRun_socPercent_bounds CAP PWR mode hCAP hPWR.le rs 0 le_rfl hCAP.le⟩

/-- Witness for C2 on the spec's scenario 1: the emitted step has its
socPercent inside [0, 100]. -/
theorem soc_invariant_witness :
    0 ≤ (⟨250, 0, 0, 25⟩ : StepResult).socPercent ∧
      (⟨250, 0, 0, 25⟩ : StepResult).socPercent ≤ 100 :=
  (soc_invariant 1000 250 ChargeMode.pvOnly [⟨100, 500, 0, 0⟩] (by norm_num)
      (by norm_num) (by intro r h; simp at h; simp [h])).2 ⟨250, 0, 0, 25⟩
    (by rw [scenario1_eval]; exact List.Mem.head _)

/-- C3: at every step the updated state of charge equals the previous one
plus pvCharge plus gridCharge minus discharge, exactly; consequently the
final state of charge of any run is the start plus total pv charge plus
total grid charge minus total discharge. -/
theorem soc_conservation :
    (∀ (CAP PWR : ℚ) (mode : ChargeMode) (soc : ℚ) (r : TimeRecord),
      (simStep CAP PWR mode soc r).2 =
        soc + (simStep CAP PWR mode soc r).1.pvCharge +
          (simStep CAP PWR mode soc r).1.gridCharge -
            (simStep CAP PWR mode soc r).1.discharge) ∧
    (∀ (CAP PWR : ℚ) (mode : ChargeMode) (soc : ℚ) (rs : List TimeRecord),
      socFinal CAP PWR mode soc rs =
        soc + totalPvCharge (simRun CAP PWR mode soc rs) +
          totalGridCharge (simRun CAP PWR mode soc rs) -
            totalDischarge (simRun CAP PWR mode soc rs)) := by
  refine ⟨simStep_soc_eq, ?_⟩
  intro CAP PWR mode soc rs
  induction rs generalizing soc with
  | nil =>
      simp only [socFinal, simRun, totalPvCharge, totalGridCharge,
        totalDischarge, List.map_nil, List.sum_nil]
      ring
  | cons r rs ih =>
      simp only [socFinal, simRun, totalPvCharge_cons, totalGridCharge_cons,
        totalDischarge_cons]
      rw [ih, simStep_soc_eq CAP PWR mode soc r]
      ring

/-- C4: at every step of every run, under every mode, the total charge
pvCharge + gridCharge and the discharge are each bounded by the per-interval
power limit. -/
theorem run_power_bound (CAP PWR : ℚ) (mode : ChargeMode)
    (rs : List TimeRecord) :
    ∀ res ∈ simulate CAP PWR mode rs,
      res.pvCharge + res.gridCharge ≤ PWR ∧ res.discharge ≤ PWR := by
  intro res h
  obtain ⟨s, r', rfl⟩ := mem_simRun CAP PWR mode rs 0 res h
  exact ⟨simStep_charge_le CAP PWR mode s r', simStep_discharge_le CAP PWR mode s r'⟩

/-- Witness for C4 on the spec's scenario 1: the emitted step respects both
power bounds with PWR = 250. -/
theorem run_power_bound_witness :
    (⟨250, 0, 0, 25⟩ : StepResult).pvCharge +
        (⟨250, 0, 0, 25⟩ : StepResult).gridCharge ≤ 250 ∧
      (⟨250, 0, 0, 25⟩ : StepResult).discharge ≤ 250 :=
  run_power_bound 1000 250 ChargeMode.pvOnly [⟨100, 500, 0, 0⟩]
    ⟨250, 0, 0, 25⟩ (by rw [scenario1_eval]; exact List.Mem.head _)

/-- C5: under PV_ONLY every step of every run has gridCharge = 0, and under
GRID_ONLY every step of every run has pvCharge = 0. -/
theorem mode_exclusivity (CAP PWR : ℚ) (rs : List TimeRecord) :
    (∀ res ∈ simulate CAP PWR ChargeMode.pvOnly rs, res.gridCharge = 0) ∧
    (∀ res ∈ simulate CAP PWR ChargeMode.gridOnly rs, res.pvCharge = 0) := by
  constructor <;> intro res h
  · obtain ⟨s, r', rfl⟩ := mem_simRun CAP PWR ChargeMode.pvOnly rs 0 res h
    rfl
  · obtain ⟨s, r', rfl⟩ := mem_simRun CAP PWR ChargeMode.gridOnly rs 0 res h
    rfl

/-- Witness for C5 on the spec's scenario 1: the PV_ONLY step has
gridCharge = 0. -/
theorem mode_exclusivity_witness :
    (⟨250, 0, 0, 25⟩ : StepResult).gridCharge = 0 :=
  (mode_exclusivity 1000 250 [⟨100, 500, 0, 0⟩]).1 ⟨250, 0, 0, 25⟩
    (by rw [scenario1_eval]; exact List.Mem.head _)

/-- Counterexample to C6: in GRID_ONLY mode, the second step of a concrete
run both charges from the grid (gridCharge = 250 > 0) and discharges
(discharge = 100 > 0), so a step can both charge and discharge. -/
theorem grid_charge_with_discharge_example :
    0 < ((simulate 1000 250 ChargeMode.gridOnly
          [⟨0, 0, 0, 0⟩, ⟨100, 0, 0, 0⟩]).getD 1 ⟨0, 0, 0, 0⟩).pvCharge +
        ((simulate 1000 250 ChargeMode.gridOnly
          [⟨0, 0, 0, 0⟩, ⟨100, 0, 0, 0⟩]).getD 1 ⟨0, 0, 0, 0⟩).gridCharge ∧
      0 < ((simulate 1000 250 ChargeMode.gridOnly
          [⟨0, 0, 0, 0⟩, ⟨100, 0, 0, 0⟩]).getD 1 ⟨0, 0, 0, 0⟩).discharge := by
  rw [gridOnly_eval]
  norm_num [List.getD]

/-- C6 amended: at every step of every run, under every mode, pvCharge and
discharge are never both positive — the disjoint-conditions argument is
valid for the solar contribution, whose driver `excess` excludes a positive
`deficit`, but not for gridCharge, which is computed without reference to
`excess`. -/
theorem pv_discharge_exclusive (CAP PWR : ℚ) (mode : ChargeMode)
    (rs : List TimeRecord) :
    ∀ res ∈ simulate CAP PWR mode rs,
      ¬(0 < res.pvCharge ∧ 0 < res.discharge) := by
  intro res h
  obtain ⟨s, r', rfl⟩ := mem_simRun CAP PWR mode rs 0 res h
  exact simStep_pv_discharge CAP PWR mode s r'

/-- Witness for the amended C6 on the spec's scenario 1. -/
theorem pv_discharge_exclusive_witness :
    ¬(0 < (⟨250, 0, 0, 25⟩ : StepResult).pvCharge ∧
      0 < (⟨250, 0, 0, 25⟩ : StepResult).discharge) :=
  pv_discharge_exclusive 1000 250 ChargeMode.pvOnly [⟨100, 500, 0, 0⟩]
    ⟨250, 0, 0, 25⟩ (by rw [scenario1_eval]; exact List.Mem.head _)

/-- Counterexample to C7: with capacity -1 and power limit -1 (both
non-positive) the simulation is not rejected — it processes the single
record and produces a per-step output. -/
theorem nonpositive_config_not_rejected :
    (simulate (-1) (-1) ChargeMode.pvOnly [⟨1, 0, 0, 0⟩]).length = 1 := by
  rfl

/-- C7 amended: the code performs no configuration validation at all; the
simulation produces one output per record for every capacity and power
value.  Non-positive values cannot arise through the dashboard because the
battery size is selected from the fixed set {10, 15} MWh, and both implied
configurations are strictly positive (CAP of 10000 or 15000 kWh, PWR of
1250 or 1875 kWh per interval). -/
theorem config_positive_and_no_rejection (battery_mwh CAP PWR : ℚ)
    (mode : ChargeMode) (rs : List TimeRecord)
    (h : battery_mwh = 10 ∨ battery_mwh = 15) :
    (0 < capOf battery_mwh ∧ 0 < pwrOf battery_mwh) ∧
    (simulate CAP PWR mode rs).length = rs.length := by
  refine ⟨?_, simRun_length CAP PWR mode rs 0⟩
  rcases h with rfl | rfl <;> constructor <;> norm_num [capOf, pwrOf, mwOf]

/-- Witness for the amended C7: the 10 MWh tier is positive, and a run with
a non-positive configuration still emits one output per record. -/
theorem config_positive_and_no_rejection_witness :
    ((0 < capOf 10 ∧ 0 < pwrOf 10) ∧
      (simulate (-1) (-1) ChargeMode.gridOnly [⟨1, 0, 0, 0⟩]).length =
        ([⟨1, 0, 0, 0⟩] : List TimeRecord).length) :=
  config_positive_and_no_rejection 10 (-1) (-1) ChargeMode.gridOnly
    [⟨1, 0, 0, 0⟩] (Or.inl rfl)

/-- C8: the evaluator's guarded ratios fall back to 0 on a zero denominator:
zero total export gives exportAvoidedPct = 0, and zero total charge gives
gridDependencyPct = 0 (no division is performed in either case). -/
theorem zero_denominator_fallback (rs : List TimeRecord)
    (out : List StepResult) :
    (totalExport rs = 0 →
      export_avoided_pct (totalPvCharge out) (totalExport rs) = 0) ∧
    (totalPvCharge out + totalGridCharge out = 0 →
      grid_dependency (totalPvCharge out) (totalGridCharge out) = 0) := by
  constructor <;> intro h <;>
    simp [export_avoided_pct, grid_dependency, h]

/-- Witness for C8 on a concrete record with zero export and a step with
zero pv and grid charge. -/
theorem zero_denominator_fallback_witness :
    (export_avoided_pct (totalPvCharge [⟨0, 0, 1, 0⟩])
        (totalExport [⟨5, 3, 2, 0⟩]) = 0) ∧
      (grid_dependency (totalPvCharge [⟨0, 0, 1, 0⟩])
        (totalGridCharge [⟨0, 0, 1, 0⟩]) = 0) :=
  ⟨(zero_denominator_fallback [⟨5, 3, 2, 0⟩] [⟨0, 0, 1, 0⟩]).1
      (by simp [totalExport]),
   (zero_denominator_fallback [⟨5, 3, 2, 0⟩] [⟨0, 0, 1, 0⟩]).2
      (by simp [totalPvCharge, totalGridCharge])⟩

/-- C9: on an empty input sequence the simulation output is empty, all the
evaluator sums are zero, the average SOC is the NaN of an empty mean
(modelled as `none`, which compares false), and the verdict computation
completes and reports NOT_OPTIMAL. -/
theorem empty_input_behavior (CAP PWR : ℚ) (mode : ChargeMode) :
    simulate CAP PWR mode [] = [] ∧
    totalPvCharge (simulate CAP PWR mode []) = 0 ∧
    totalGridCharge (simulate CAP PWR mode []) = 0 ∧
    totalDischarge (simulate CAP PWR mode []) = 0 ∧
    totalExport ([] : List TimeRecord) = 0 ∧
    avgSoc (simulate CAP PWR mode []) = none ∧
    runVerdict CAP PWR mode [] = Verdict.NOT_OPTIMAL := by
  refine ⟨rfl, rfl, rfl, rfl, rfl, rfl, ?_⟩
  rfl

/-- C10: under GRID_ONLY the verdict is NOT_OPTIMAL for every configuration
and every input sequence: every step's pvCharge is 0, so the total pv
charge is 0, exportAvoidedPct is 0 whatever the export total, and the
strict threshold 60 can never be exceeded. -/
theorem gridOnly_not_optimal (CAP PWR : ℚ) (rs : List TimeRecord) :
    runVerdict CAP PWR ChargeMode.gridOnly rs = Verdict.NOT_OPTIMAL := by
  simp only [runVerdict, simulate]
  rw [simRun_gridOnly_pv_total CAP PWR rs 0]
  have he : export_avoided_pct 0 (totalExport rs) = 0 := by
    unfold export_avoided_pct
    split_ifs with h
    · rw [zero_div, zero_mul]
    · rfl
  rw [he]
  unfold verdict
  refine if_neg ?_
  rintro ⟨h60, _, _⟩
  norm_num at h60

end BESS
